import Mathlib

/-!
Verification of `src/monitor/core.py` (class `DevEnvironmentMonitor`), a
fixed-interval sampling-and-alerting loop for a development machine.

The Python code is shallowly embedded: each metric getter becomes a total
Lean function over an explicit description of its OS-source outcome
(`Except Unit _` models the try/except boundary: `.error ()` is "the
underlying facility raised"); Python floats are modelled as rationals;
Python `round(x, 2)` is modelled as round-half-to-even at two decimals;
Python dicts built in insertion order are modelled as association lists.
The monitoring loop is modelled as a fuel-indexed run over a stream of
per-tick outcomes.
-/

namespace CloudMonitor

/-- Round-half-to-even on rationals, the rounding mode of Python `round`. -/
def roundHalfEven (q : ℚ) : ℤ :=
  let f : ℤ := ⌊q⌋
  let frac : ℚ := q - f
  if frac < 1/2 then f
  else if 1/2 < frac then f + 1
  else if f % 2 = 0 then f else f + 1

/-- Python `round(x, 2)`: round to two decimal places, ties to even. -/
def round2 (q : ℚ) : ℚ :=
  (roundHalfEven (q * 100) : ℚ) / 100

/-- Decimal rendering of a rational whose denominator divides 100, following
Python float formatting on such values (`85.3` renders as "85.3",
`85.25` as "85.25", `0.05` as "0.05"). Used only to model the f-string
interpolation of the temperature value into the alert message. -/
def decStr (q : ℚ) : String :=
  let sgn := if q < 0 then "-" else ""
  let h := (q.num.natAbs * 100) / q.den
  let ip := h / 100
  let fr := h % 100
  sgn ++ toString ip ++ "." ++
    (if fr % 10 = 0 then toString (fr / 10)
     else (if fr < 10 then "0" else "") ++ toString fr)

/-- CPU metrics dict returned by `get_cpu_metrics` on success
(keys `cpu_percent`, `load_1min`, `load_5min`, `load_15min`, `cpu_freq`). -/
structure CpuMetrics where
  cpu_percent : ℚ
  load_1min : ℚ
  load_5min : ℚ
  load_15min : ℚ
  cpu_freq : ℚ
  deriving DecidableEq, Repr

/-- Memory metrics dict returned by `get_memory_metrics` on success. -/
structure MemoryMetrics where
  memory_used_percent : ℚ
  memory_available_gb : ℚ
  swap_used_percent : ℚ
  swap_free_gb : ℚ
  deriving DecidableEq, Repr

/-- Raw values obtained from `psutil` inside `get_cpu_metrics`:
`getloadavg()` triple, `cpu_count()`, `cpu_percent(interval=1)`, and
`cpu_freq().current` (`none` when `psutil.cpu_freq()` is falsy/unavailable). -/
structure CpuRaw where
  load1 : ℚ
  load5 : ℚ
  load15 : ℚ
  cpu_count : ℕ
  cpu_percent : ℚ
  cpu_freq : Option ℚ
  deriving DecidableEq, Repr

/-- Raw values obtained from `psutil.virtual_memory()` and
`psutil.swap_memory()` inside `get_memory_metrics` (byte counts for the
absolute figures). -/
structure MemRaw where
  mem_percent : ℚ
  mem_available : ℚ
  swap_percent : ℚ
  swap_free : ℚ
  deriving DecidableEq, Repr

/-- Result of a completed `subprocess.run` invocation: its captured stdout. -/
structure RunResult where
  stdout : String
  deriving DecidableEq, Repr

/-- `get_cpu_metrics`: on a `psutil` failure the `except` branch returns the
empty dict (modelled `none`); on success each load average is divided by the
core count, scaled to percent and rounded to 2 decimals, and the frequency
defaults to 0 when `psutil.cpu_freq()` is unavailable. A core count of 0
makes the division raise `ZeroDivisionError`, which the same `except`
branch turns into the empty dict. -/
def get_cpu_metrics (src : Except Unit CpuRaw) : Option CpuMetrics :=
  match src with
  | .error _ => none
  | .ok r =>
    if r.cpu_count = 0 then none
    else
      some
        { cpu_percent := r.cpu_percent
          load_1min := round2 (r.load1 / (r.cpu_count : ℚ) * 100)
          load_5min := round2 (r.load5 / (r.cpu_count : ℚ) * 100)
          load_15min := round2 (r.load15 / (r.cpu_count : ℚ) * 100)
          cpu_freq := r.cpu_freq.getD 0 }

/-- `get_memory_metrics`: on failure the empty dict (modelled `none`);
on success percent figures are passed through and byte counts are converted
to GB with 1024-based units, rounded to 2 decimals. -/
def get_memory_metrics (src : Except Unit MemRaw) : Option MemoryMetrics :=
  match src with
  | .error _ => none
  | .ok r =>
    some
      { memory_used_percent := r.mem_percent
        memory_available_gb := round2 (r.mem_available / (1024 ^ 3 : ℚ))
        swap_used_percent := r.swap_percent
        swap_free_gb := round2 (r.swap_free / (1024 ^ 3 : ℚ)) }

/-- Python `str.strip()`: remove whitespace from both ends. -/
def pyStrip (s : String) : String :=
  ⟨((s.data.dropWhile Char.isWhitespace).reverse.dropWhile Char.isWhitespace).reverse⟩

/-- Value of a nonempty list of decimal digit characters. -/
def digitsVal (cs : List Char) : ℕ :=
  cs.foldl (fun a c => a * 10 + (c.toNat - 48)) 0

/-- Parse an unsigned decimal literal (`"123"`, `"12.5"`, `".5"`, `"5."`)
into a rational; `none` on anything else. Models Python `float` on the
finite decimal literals relevant to sysfs temperature contents. -/
def parseUnsigned (cs : List Char) : Option ℚ :=
  match cs.span (fun c => c ≠ '.') with
  | (ip, []) =>
    if ip ≠ [] ∧ ip.all Char.isDigit then some (digitsVal ip : ℚ) else none
  | (ip, _ :: fp) =>
    if (ip ≠ [] ∨ fp ≠ []) ∧ ip.all Char.isDigit ∧ fp.all Char.isDigit
        ∧ fp.all (fun c => c ≠ '.') then
      some ((digitsVal ip : ℚ) + (digitsVal fp : ℚ) / (10 ^ fp.length : ℚ))
    else none

/-- Python `float(s)` on an already-stripped string, restricted to finite
decimal literals with an optional sign. -/
def pyFloat (s : String) : Option ℚ :=
  match s.data with
  | '-' :: rest => (parseUnsigned rest).map Neg.neg
  | '+' :: rest => parseUnsigned rest
  | cs => parseUnsigned cs

/-- `get_temperature`: the source outcome is the file content of
`/sys/class/thermal/thermal_zone0/temp` (`.error ()` when the open or read
raises). The content is stripped, parsed as a float, divided by 1000 and
rounded to 2 decimals; any failure (missing/unreadable file, non-numeric
content) is caught and returns `None`. -/
def get_temperature (src : Except Unit String) : Option ℚ :=
  match src with
  | .error _ => none
  | .ok content =>
    match pyFloat (pyStrip content) with
    | some v => some (round2 (v / 1000))
    | none => none

/-- The fixed ordered list of monitored services (`self.dev_services`). -/
def dev_services : List String :=
  ["ssh", "docker", "nginx", "postgresql"]

/-- One service status from a `subprocess.run` outcome: stdout stripped and
compared to "active" on success; any exception maps to `false`. -/
def serviceActive (r : Except Unit RunResult) : Bool :=
  match r with
  | .ok res => pyStrip res.stdout == "active"
  | .error _ => false

/-- `check_dev_services`: iterates over `dev_services` in declared order,
querying each service and recording its boolean status; the resulting dict
is modelled as an association list in insertion order. -/
def check_dev_services (query : String → Except Unit RunResult) :
    List (String × Bool) :=
  dev_services.foldl (fun acc s => acc ++ [(s, serviceActive (query s))]) []

/-- The `subprocess.run` call constructed in `check_dev_services`, with the
keyword arguments actually passed at lines 108-112 of the source. No
`timeout` keyword is passed, so the field is `none`. -/
structure SubprocessCall where
  args : List String
  capture_output : Bool
  text : Bool
  timeout : Option ℚ
  deriving DecidableEq, Repr

/-- The exact invocation `subprocess.run(["systemctl", "is-active", service],
capture_output=True, text=True)` built for one service. -/
def serviceStatusCall (service : String) : SubprocessCall :=
  { args := ["systemctl", "is-active", service]
    capture_output := true
    text := true
    timeout := none }

/-- Outcomes of the four independent metric sources during one collection,
each individually fallible. The service query outcome is a function of the
service name, so per-service failures are independent. -/
structure SourceOutcomes where
  cpu : Except Unit CpuRaw
  memory : Except Unit MemRaw
  temperature : Except Unit String
  services : String → Except Unit RunResult

/-- The per-tick snapshot dict built by `get_all_metrics` (keys `timestamp`,
`cpu`, `memory`, `temperature`, `services`). `none` models the empty dict /
`None` produced when the corresponding source failed. -/
structure Metrics where
  timestamp : String
  cpu : Option CpuMetrics
  memory : Option MemoryMetrics
  temperature : Option ℚ
  services : List (String × Bool)
  deriving DecidableEq, Repr

/-- `get_all_metrics`: assembles the snapshot from the four getters. Each
getter catches its own source failure internally, so this function is total:
no exception crosses the collector boundary. -/
def get_all_metrics (now : String) (o : SourceOutcomes) : Metrics :=
  { timestamp := now
    cpu := get_cpu_metrics o.cpu
    memory := get_memory_metrics o.memory
    temperature := get_temperature o.temperature
    services := check_dev_services o.services }

/-- An alert, i.e. one `logger.warning` call in the rule block of
`start_monitoring`. The high-temperature alert carries the value it
interpolates into its message. -/
inductive Alert where
  | highTemperature (value : ℚ)
  | highMemory
  | serviceDown (service : String)
  deriving DecidableEq, Repr

/-- The message text of an alert, as formatted by the source f-strings. -/
def alertMessage : Alert → String
  | .highTemperature t => "High temperature detected: " ++ decStr t ++ "°C"
  | .highMemory => "High memory usage detected!"
  | .serviceDown s => "Service " ++ s ++ " is not running!"

/-- Temperature rule: `if metrics["temperature"] and metrics["temperature"] > 80`.
Python truthiness makes `None` and `0.0` falsy, hence the `t ≠ 0` conjunct. -/
def tempRule (temp : Option ℚ) : List Alert :=
  match temp with
  | none => []
  | some t => if t ≠ 0 ∧ 80 < t then [Alert.highTemperature t] else []

/-- The alert-rule block of `start_monitoring` (lines 144-155), run on one
snapshot. Returns the alerts emitted in order, paired with `true` when the
block raises: `metrics["memory"]["memory_used_percent"]` is a `KeyError`
when the memory dict is empty (source failed), which aborts the block after
the temperature rule and before the service rules. -/
def evalAlerts (m : Metrics) : List Alert × Bool :=
  let a1 := tempRule m.temperature
  match m.memory with
  | none => (a1, true)
  | some mem =>
    let a2 := if 90 < mem.memory_used_percent then [Alert.highMemory] else []
    let a3 := m.services.foldl
      (fun acc p => if p.2 then acc else acc ++ [Alert.serviceDown p.1]) []
    (a1 ++ a2 ++ a3, false)

/-- Whether an alert is a HighTemperature alert. -/
def isHighTemp : Alert → Bool
  | .highTemperature _ => true
  | _ => false

/-- Whether an alert is a ServiceDown alert. -/
def isServiceDown : Alert → Bool
  | .serviceDown _ => true
  | _ => false

/-- What one tick of `start_monitoring` does, seen from the loop:
completes normally, raises an unexpected exception, or is interrupted by
`KeyboardInterrupt`. -/
inductive TickOutcome where
  | ok
  | raise
  | interrupt
  deriving DecidableEq, Repr

/-- How a run of `start_monitoring` ended: via the generic
`except Exception` handler (error logged, function returns) or via the
`except KeyboardInterrupt` handler (user stop). -/
inductive ExitKind where
  | errorLogged
  | userStop
  deriving DecidableEq, Repr

/-- The `try: while True: ... except` structure of `start_monitoring`,
run for at most `fuel` ticks over a stream of per-tick outcomes: a raising
tick is caught by the handler OUTSIDE the loop, so the function returns.
`none` means the fuel ran out with the loop still running. -/
def runMonitor (outcome : ℕ → TickOutcome) : ℕ → ℕ → Option ExitKind
  | _, 0 => none
  | start, fuel + 1 =>
    match outcome start with
    | .ok => runMonitor outcome (start + 1) fuel
    | .raise => some .errorLogged
    | .interrupt => some .userStop

/-- A benign memory sample: 50% used, well below the 90% threshold. -/
def memOk : MemoryMetrics :=
  { memory_used_percent := 50
    memory_available_gb := 2
    swap_used_percent := 0
    swap_free_gb := 1 }

/-- Snapshot for spec Scenario A: temperature 85.3, everything else healthy. -/
def snapA : Metrics :=
  { timestamp := "t0"
    cpu := none
    memory := some memOk
    temperature := some (853 / 10)
    services := [("ssh", true), ("docker", true), ("nginx", true), ("postgresql", true)] }

/-- Snapshot for spec Scenario A boundary case: temperature exactly 80.0. -/
def snapA80 : Metrics :=
  { timestamp := "t0"
    cpu := none
    memory := some memOk
    temperature := some 80
    services := [("ssh", true), ("docker", true), ("nginx", true), ("postgresql", true)] }

/-- Snapshot for spec Scenario C: docker and nginx down, memory present. -/
def snapC : Metrics :=
  { timestamp := "t0"
    cpu := none
    memory := some memOk
    temperature := none
    services := [("ssh", true), ("docker", false), ("nginx", false), ("postgresql", true)] }

/-- Scenario C services but with the memory source failed (empty dict). -/
def snapCMemFail : Metrics :=
  { timestamp := "t0"
    cpu := none
    memory := none
    temperature := none
    services := [("ssh", true), ("docker", false), ("nginx", false), ("postgresql", true)] }

/-- A snapshot whose memory source failed while the temperature is high and
a service is down: exercises the rule block across the memory lookup. -/
def snapMemFail : Metrics :=
  { timestamp := "t0"
    cpu := none
    memory := none
    temperature := some (853 / 10)
    services := [("ssh", true), ("docker", false), ("nginx", false), ("postgresql", true)] }

/-- Source outcomes in which every metric source fails. -/
def allFail : SourceOutcomes :=
  { cpu := .error ()
    memory := .error ()
    temperature := .error ()
    services := fun _ => .error () }

/-- A tick-outcome stream whose first tick raises an unexpected exception
and whose later ticks would all complete normally. -/
def badTrace : ℕ → TickOutcome :=
  fun i => if i = 0 then TickOutcome.raise else TickOutcome.ok

/-- `check_dev_services` unfolded over the concrete service list. -/
theorem check_dev_services_eq (query : String → Except Unit RunResult) :
    check_dev_services query
      = [("ssh", serviceActive (query "ssh")),
         ("docker", serviceActive (query "docker")),
         ("nginx", serviceActive (query "nginx")),
         ("postgresql", serviceActive (query "postgresql"))] :=
  rfl

/-- The service for-loop accumulates one ServiceDown alert per inactive
service, in list order. -/
theorem serviceFold_eq (l : List (String × Bool)) (acc : List Alert) :
    l.foldl (fun a p => if p.2 then a else a ++ [Alert.serviceDown p.1]) acc
      = acc ++ (l.filter (fun p => !p.2)).map (fun p => Alert.serviceDown p.1) := by
  induction l generalizing acc with
  | nil => simp
  | cons p tl ih =>
    cases hp : p.2 <;> simp [List.foldl_cons, hp, ih]

/-- Every alert produced by the service rule is a ServiceDown alert. -/
theorem serviceAlerts_all_serviceDown (l : List (String × Bool)) :
    ∀ a ∈ (l.filter (fun p => !p.2)).map (fun p => Alert.serviceDown p.1),
      isServiceDown a = true := by
  intro a ha
  obtain ⟨p, _, rfl⟩ := List.mem_map.mp ha
  rfl

/-- The temperature rule fires exactly on a present value strictly above 80
(Python truthiness of 0.0 never matters since 80 < t forces t ≠ 0). -/
theorem tempRule_char (t : ℚ) :
    tempRule (some t) = if 80 < t then [Alert.highTemperature t] else [] := by
  by_cases h : 80 < t
  · have hne : t ≠ 0 := ne_of_gt (lt_trans (by norm_num) h)
    simp [tempRule, h, hne]
  · simp [tempRule, h]

/-- The temperature rule emits only HighTemperature alerts; its HighTemperature
count is 1 exactly when it fires. -/
theorem tempRule_countP (t? : Option ℚ) :
    (tempRule t?).countP isHighTemp
      = match t? with
        | some t => if 80 < t then 1 else 0
        | none => 0 := by
  cases t? with
  | none => rfl
  | some t =>
    rw [tempRule_char]
    by_cases h : 80 < t <;> simp [h, isHighTemp]

/-- While every tick completes normally, the loop keeps running. -/
theorem runMonitor_all_ok (o : ℕ → TickOutcome) (fuel : ℕ) :
    ∀ start : ℕ, (∀ i, i < fuel → o (start + i) = TickOutcome.ok) →
      runMonitor o start fuel = none := by
  induction fuel with
  | zero => intro start _; rfl
  | succ n ih =>
    intro start h
    have h0 : o start = TickOutcome.ok := by
      have := h 0 (Nat.succ_pos n)
      simpa using this
    have hrest : ∀ i, i < n → o (start + 1 + i) = TickOutcome.ok := by
      intro i hi
      have : start + 1 + i = start + (i + 1) := by omega
      rw [this]
      exact h (i + 1) (by omega)
    simp [runMonitor, h0, ih (start + 1) hrest]

/-- If the first abnormal tick raises, the loop exits through the generic
exception handler. -/
theorem runMonitor_first_raise (o : ℕ → TickOutcome) (fuel : ℕ) :
    ∀ start j : ℕ, j < fuel → o (start + j) = TickOutcome.raise →
      (∀ i, i < j → o (start + i) = TickOutcome.ok) →
      runMonitor o start fuel = some ExitKind.errorLogged := by
  induction fuel with
  | zero => intro start j hj; omega
  | succ n ih =>
    intro start j hj hraise hok
    cases j with
    | zero =>
      have h0 : o start = TickOutcome.raise := by simpa using hraise
      simp [runMonitor, h0]
    | succ k =>
      have h0 : o start = TickOutcome.ok := by
        have := hok 0 (Nat.succ_pos k)
        simpa using this
      have hraise2 : o (start + 1 + k) = TickOutcome.raise := by
        have : start + 1 + k = start + (k + 1) := by omega
        rw [this]; exact hraise
      have hok2 : ∀ i, i < k → o (start + 1 + i) = TickOutcome.ok := by
        intro i hi
        have : start + 1 + i = start + (i + 1) := by omega
        rw [this]; exact hok (i + 1) (by omega)
      simp [runMonitor, h0, ih (start + 1) k (by omega) hraise2 hok2]

/-- If the first abnormal tick is a KeyboardInterrupt, the loop exits through
the interrupt handler. -/
theorem runMonitor_first_interrupt (o : ℕ → TickOutcome) (fuel : ℕ) :
    ∀ start j : ℕ, j < fuel → o (start + j) = TickOutcome.interrupt →
      (∀ i, i < j → o (start + i) = TickOutcome.ok) →
      runMonitor o start fuel = some ExitKind.userStop := by
  induction fuel with
  | zero => intro start j hj; omega
  | succ n ih =>
    intro start j hj hstop hok
    cases j with
    | zero =>
      have h0 : o start = TickOutcome.interrupt := by simpa using hstop
      simp [runMonitor, h0]
    | succ k =>
      have h0 : o start = TickOutcome.ok := by
        have := hok 0 (Nat.succ_pos k)
        simpa using this
      have hstop2 : o (start + 1 + k) = TickOutcome.interrupt := by
        have : start + 1 + k = start + (k + 1) := by omega
        rw [this]; exact hstop
      have hok2 : ∀ i, i < k → o (start + 1 + i) = TickOutcome.ok := by
        intro i hi
        have : start + 1 + i = start + (i + 1) := by omega
        rw [this]; exact hok (i + 1) (by omega)
      simp [runMonitor, h0, ih (start + 1) k (by omega) hstop2 hok2]

/-- Claim C1: the spec says that when the memory field is absent the memory
rule is simply skipped, with no alert and no error, and the remaining rules
run. The code instead evaluates `metrics["memory"]["memory_used_percent"]`
on the empty dict, raising `KeyError`: on a snapshot with a failed memory
source, a high temperature and two inactive services, the rule block raises
(flag `true`) after the temperature alert and emits no ServiceDown alert. -/
theorem memory_absent_raises_keyerror :
    snapMemFail.memory = none
    ∧ (evalAlerts snapMemFail).2 = true
    ∧ (evalAlerts snapMemFail).1 = [Alert.highTemperature (853 / 10)]
    ∧ (evalAlerts snapMemFail).1.countP isServiceDown = 0
    ∧ snapMemFail.services.lookup "docker" = some false := by
  refine ⟨rfl, rfl, ?_, ?_, by decide⟩
  · norm_num [evalAlerts, snapMemFail, tempRule]
  · norm_num [evalAlerts, snapMemFail, tempRule, isServiceDown,
      List.countP_cons, List.countP_nil]

/-- Claim C2 counterexample: a run whose first tick raises an unexpected
exception terminates (through the error handler, not a user stop) even
though every later tick would have completed normally — the loop does not
continue to the next tick. -/
theorem loop_error_terminates_counterexample :
    runMonitor badTrace 0 5 = some ExitKind.errorLogged
    ∧ runMonitor badTrace 0 5 ≠ some ExitKind.userStop
    ∧ badTrace 1 = TickOutcome.ok := by
  decide

/-- Claim C2 (amended): the try/except of `start_monitoring` wraps the whole
while loop, so an unexpected error escaping a tick is caught, logged and
TERMINATES the loop (the error does not propagate out of the function);
the loop runs indefinitely only while ticks complete normally, and a
KeyboardInterrupt ends it as a user stop. -/
theorem loop_error_handling :
    (∀ (o : ℕ → TickOutcome) (n : ℕ),
      (∀ i, i < n → o i = TickOutcome.ok) → runMonitor o 0 n = none)
    ∧ (∀ (o : ℕ → TickOutcome) (n j : ℕ), j < n →
        o j = TickOutcome.raise → (∀ i, i < j → o i = TickOutcome.ok) →
        runMonitor o 0 n = some ExitKind.errorLogged)
    ∧ (∀ (o : ℕ → TickOutcome) (n j : ℕ), j < n →
        o j = TickOutcome.interrupt → (∀ i, i < j → o i = TickOutcome.ok) →
        runMonitor o 0 n = some ExitKind.userStop) := by
  refine ⟨?_, ?_, ?_⟩
  · intro o n h
    exact runMonitor_all_ok o n 0 (by simpa using h)
  · intro o n j hj hraise hok
    exact runMonitor_first_raise o n 0 j hj (by simpa using hraise) (by simpa using hok)
  · intro o n j hj hstop hok
    exact runMonitor_first_interrupt o n 0 j hj (by simpa using hstop) (by simpa using hok)

/-- Witness for the amended C2 theorem at concrete traces. -/
theorem loop_error_handling_witness :
    runMonitor (fun _ => TickOutcome.ok) 0 3 = none
    ∧ runMonitor badTrace 0 5 = some ExitKind.errorLogged :=
  ⟨loop_error_handling.1 (fun _ => TickOutcome.ok) 3 (fun _ _ => rfl),
   loop_error_handling.2.1 badTrace 5 0 (by decide) (by decide)
     (fun i hi => absurd hi (Nat.not_lt_zero i))⟩

/-- Claim C3 counterexample: the `subprocess.run` invocation built for the
service "ssh" carries no timeout at all, so no bounded timeout is enforced
on the external status query. -/
theorem service_call_timeout_counterexample :
    ¬ ∃ t : ℚ, (serviceStatusCall "ssh").timeout = some t := by
  rintro ⟨t, h⟩
  simp [serviceStatusCall] at h

/-- Claim C3 (amended): every per-service status query is invoked WITHOUT a
timeout (the `timeout` keyword is never passed), so its latency is not
bounded by the monitor; a query that fails with an exception is still
treated as check failure, mapping the service to `false`. -/
theorem service_call_no_timeout :
    (∀ s : String,
      (serviceStatusCall s).timeout = none
      ∧ (serviceStatusCall s).args = ["systemctl", "is-active", s])
    ∧ serviceActive (.error ()) = false :=
  ⟨fun _ => ⟨rfl, rfl⟩, rfl⟩

/-- Claim C4: the collector is total — each getter catches its own source
failure, so `get_all_metrics` always returns a snapshot; a failed CPU,
memory or temperature source yields an absent field, and a failed service
query yields `false` for that service. -/
theorem collector_isolates_failures :
    ∀ (now : String) (o : SourceOutcomes),
      (o.cpu = .error () → (get_all_metrics now o).cpu = none)
      ∧ (o.memory = .error () → (get_all_metrics now o).memory = none)
      ∧ (o.temperature = .error () → (get_all_metrics now o).temperature = none)
      ∧ (∀ s, s ∈ dev_services → o.services s = .error () →
          (get_all_metrics now o).services.lookup s = some false) := by
  intro now o
  refine ⟨?_, ?_, ?_, ?_⟩
  · intro h; simp [get_all_metrics, get_cpu_metrics, h]
  · intro h; simp [get_all_metrics, get_memory_metrics, h]
  · intro h; simp [get_all_metrics, get_temperature, h]
  · intro s hs h
    fin_cases hs <;>
      simp [get_all_metrics, check_dev_services_eq, List.lookup, h, serviceActive]

/-- Witness for C4: with every source failing, all optional fields are
absent and a service maps to false. -/
theorem collector_isolates_failures_witness :
    (get_all_metrics "t0" allFail).cpu = none
    ∧ (get_all_metrics "t0" allFail).memory = none
    ∧ (get_all_metrics "t0" allFail).temperature = none
    ∧ (get_all_metrics "t0" allFail).services.lookup "docker" = some false :=
  ⟨(collector_isolates_failures "t0" allFail).1 rfl,
   (collector_isolates_failures "t0" allFail).2.1 rfl,
   (collector_isolates_failures "t0" allFail).2.2.1 rfl,
   (collector_isolates_failures "t0" allFail).2.2.2 "docker" (by decide) rfl⟩

/-- The temperature rule emits no ServiceDown alert. -/
theorem tempRule_filter_isServiceDown (t? : Option ℚ) :
    (tempRule t?).filter isServiceDown = [] := by
  cases t? with
  | none => rfl
  | some t =>
    rw [tempRule_char]
    split <;> simp [isServiceDown]

/-- The memory rule emits no ServiceDown alert. -/
theorem memRule_filter_isServiceDown (c : Prop) [Decidable c] :
    (if c then [Alert.highMemory] else []).filter isServiceDown = [] := by
  split <;> simp [isServiceDown]

/-- The service rule emits no HighTemperature alert. -/
theorem serviceAlerts_countP_isHighTemp (l : List (String × Bool)) :
    ((l.filter (fun p => !p.2)).map (fun p => Alert.serviceDown p.1)).countP
      isHighTemp = 0 := by
  apply List.countP_eq_zero.mpr
  intro a ha
  obtain ⟨p, -, rfl⟩ := List.mem_map.mp ha
  simp [isHighTemp]

/-- The memory rule emits no HighTemperature alert. -/
theorem memRule_countP_isHighTemp (c : Prop) [Decidable c] :
    (if c then [Alert.highMemory] else []).countP isHighTemp = 0 := by
  split <;> simp [isHighTemp]

/-- Claim C5: the HighTemperature rule fires exactly on a present temperature
strictly above 80.0, whatever the rest of the snapshot holds; at 85.3 it
yields exactly one HighTemperature alert whose message includes the value,
and at exactly 80.0 it yields none. -/
theorem high_temperature_rule :
    (∀ m : Metrics,
      (evalAlerts m).1.countP isHighTemp
        = (match m.temperature with
           | some t => if 80 < t then 1 else 0
           | none => 0))
    ∧ (evalAlerts snapA).1 = [Alert.highTemperature (853 / 10)]
    ∧ alertMessage (Alert.highTemperature (853 / 10))
        = "High temperature detected: 85.3°C"
    ∧ (evalAlerts snapA80).1 = [] := by
  refine ⟨?_, ?_, ?_, ?_⟩
  · intro m
    cases hm : m.memory with
    | none => simp [evalAlerts, hm, tempRule_countP]
    | some mem =>
      simp only [evalAlerts, hm]
      rw [List.countP_append, List.countP_append, serviceFold_eq,
        List.nil_append, serviceAlerts_countP_isHighTemp,
        memRule_countP_isHighTemp, tempRule_countP]
      simp
  · norm_num [evalAlerts, snapA, memOk, tempRule]
  · norm_num [alertMessage, decStr]
    decide
  · norm_num [evalAlerts, snapA80, memOk, tempRule]

/-- Claim C6 counterexample: on a snapshot whose memory source failed,
docker and nginx are recorded inactive yet the rule block produces zero
ServiceDown alerts, because the memory lookup raises before the service
loop is reached. -/
theorem service_down_counterexample :
    snapCMemFail.services.lookup "docker" = some false
    ∧ snapCMemFail.services.lookup "nginx" = some false
    ∧ (evalAlerts snapCMemFail).1.countP isServiceDown = 0
    ∧ (evalAlerts snapCMemFail).2 = true := by
  refine ⟨by decide, by decide, ?_, rfl⟩
  simp [evalAlerts, snapCMemFail, tempRule]

/-- Claim C6 (amended): for every snapshot WHOSE MEMORY FIELD IS PRESENT,
the rule block produces exactly one ServiceDown alert per inactive service,
none for active ones, in the declared list order; on Scenario C services
with a healthy memory sample this is exactly docker then nginx. -/
theorem service_down_alerts :
    (∀ (m : Metrics) (mem : MemoryMetrics), m.memory = some mem →
      (evalAlerts m).1.filter isServiceDown
        = (m.services.filter (fun p => !p.2)).map (fun p => Alert.serviceDown p.1))
    ∧ (evalAlerts snapC).1 = [Alert.serviceDown "docker", Alert.serviceDown "nginx"] := by
  constructor
  · intro m mem hm
    simp only [evalAlerts, hm]
    rw [serviceFold_eq, List.nil_append, List.filter_append, List.filter_append,
      tempRule_filter_isServiceDown, memRule_filter_isServiceDown,
      List.filter_eq_self.mpr (serviceAlerts_all_serviceDown m.services)]
    simp
  · norm_num [evalAlerts, snapC, memOk, tempRule]

/-- Witness for the amended C6 theorem: Scenario C has a present memory
field, and the ServiceDown alerts are exactly those of its inactive
services, in order. -/
theorem service_down_alerts_witness :
    snapC.memory = some memOk
    ∧ (evalAlerts snapC).1.filter isServiceDown
        = (snapC.services.filter (fun p => !p.2)).map
            (fun p => Alert.serviceDown p.1) :=
  ⟨rfl, service_down_alerts.1 snapC memOk rfl⟩

/-- Claim C7: for readable content parsing as a number, `get_temperature`
returns the value divided by 1000 and rounded to 2 decimals; a missing or
unreadable file, or non-numeric content, yields `None` with no crash. -/
theorem temperature_parse_and_convert :
    (∀ (content : String) (v : ℚ), pyFloat (pyStrip content) = some v →
      get_temperature (.ok content) = some (round2 (v / 1000)))
    ∧ get_temperature (.error ()) = none
    ∧ (∀ content : String, pyFloat (pyStrip content) = none →
      get_temperature (.ok content) = none) := by
  refine ⟨?_, rfl, ?_⟩
  · intro c v h
    simp [get_temperature, h]
  · intro c h
    simp [get_temperature, h]

/-- Witness for C7 at the content "  48312\n": parses to 48312 milli-degrees
and converts to round2 of 48.312 degrees. -/
theorem temperature_parse_and_convert_witness :
    pyFloat (pyStrip "  48312\n") = some 48312
    ∧ get_temperature (.ok "  48312\n") = some (round2 ((48312 : ℚ) / 1000))
    ∧ get_temperature (.error ()) = none :=
  ⟨by decide,
   temperature_parse_and_convert.1 "  48312\n" 48312 (by decide),
   temperature_parse_and_convert.2.1⟩

/-- Claim C8: on a successful CPU sample each load figure is the raw load
average divided by the core count, scaled to percent and rounded to 2
decimals; the figure can exceed 100 (no clamping), and the frequency
defaults to 0 when `psutil.cpu_freq()` is unavailable. -/
theorem cpu_load_normalization :
    (∀ r : CpuRaw, r.cpu_count ≠ 0 →
      ∃ c : CpuMetrics, get_cpu_metrics (.ok r) = some c
        ∧ c.load_1min = round2 (r.load1 / (r.cpu_count : ℚ) * 100)
        ∧ c.load_5min = round2 (r.load5 / (r.cpu_count : ℚ) * 100)
        ∧ c.load_15min = round2 (r.load15 / (r.cpu_count : ℚ) * 100)
        ∧ c.cpu_percent = r.cpu_percent
        ∧ (r.cpu_freq = none → c.cpu_freq = 0))
    ∧ (∃ (r : CpuRaw) (c : CpuMetrics), r.cpu_count ≠ 0
        ∧ get_cpu_metrics (.ok r) = some c ∧ 100 < c.load_1min) := by
  constructor
  · intro r h
    refine ⟨⟨r.cpu_percent, round2 (r.load1 / (r.cpu_count : ℚ) * 100),
        round2 (r.load5 / (r.cpu_count : ℚ) * 100),
        round2 (r.load15 / (r.cpu_count : ℚ) * 100), r.cpu_freq.getD 0⟩,
      by simp [get_cpu_metrics, h], rfl, rfl, rfl, rfl, ?_⟩
    intro hf
    simp [hf]
  · refine ⟨⟨8, 0, 0, 4, 0, none⟩, ⟨0, 200, 0, 0, 0⟩, by decide, ?_, by norm_num⟩
    norm_num [get_cpu_metrics, round2, roundHalfEven]

/-- Witness for C8 at a concrete successful sample with 4 cores. -/
theorem cpu_load_normalization_witness :
    ∃ c : CpuMetrics, get_cpu_metrics (.ok ⟨6, 2, 1, 4, 50, none⟩) = some c
      ∧ c.load_1min = round2 ((6 : ℚ) / ((4 : ℕ) : ℚ) * 100)
      ∧ c.cpu_freq = 0 := by
  obtain ⟨c, h1, h2, -, -, -, h6⟩ :=
    cpu_load_normalization.1 ⟨6, 2, 1, 4, 50, none⟩ (by decide)
  exact ⟨c, h1, h2, h6 rfl⟩

/-- Claim C9: the rule block is a pure function of the snapshot — it reads
only its argument and mutates no state — so evaluating an unchanged
snapshot any number of times yields the identical alert sequence (and error
flag) each time. -/
theorem evaluator_idempotent (m : Metrics) (n : ℕ) :
    (List.replicate n m).map evalAlerts = List.replicate n (evalAlerts m) := by
  simp

/-- Claim C10: for every combination of per-service query outcomes,
`check_dev_services` returns a mapping whose keys are exactly the four
configured services in declared order, each value depending only on its own
service query (a failed query yields `false` for that service alone). -/
theorem check_dev_services_shape :
    ∀ query : String → Except Unit RunResult,
      (check_dev_services query).map Prod.fst = dev_services
      ∧ (∀ s, s ∈ dev_services →
          (check_dev_services query).lookup s = some (serviceActive (query s)))
      ∧ serviceActive (.error ()) = false := by
  intro q
  refine ⟨?_, ?_, rfl⟩
  · rw [check_dev_services_eq]
    rfl
  · intro s hs
    fin_cases hs <;> rw [check_dev_services_eq] <;> rfl

/-- Witness for C10: with every query failing, docker is present and maps
to false. -/
theorem check_dev_services_shape_witness :
    (check_dev_services (fun _ => .error ())).lookup "docker"
      = some (serviceActive (.error ()))
    ∧ serviceActive (.error ()) = false :=
  ⟨(check_dev_services_shape (fun _ => .error ())).2.1 "docker" (by decide),
   (check_dev_services_shape (fun _ => .error ())).2.2⟩

end CloudMonitor
